import Mathlib

/-!
Shallow embedding of the eBrowser gesture-rate governor
(`src/eBrowser/ui/events/blink/input_handler_proxy.cc`).

The embedding models the process-wide globals of the file
(`msg_model`, `scrollSpeed`, `start_point_*`, `accumulated_delta_*`,
counters) together with the `InputHandlerProxy` members that the gesture
handlers read and write, as one explicit state record.  C++ `double`
values are modelled as `ℚ`; the delay expressions handed to
`base::TimeDelta::FromMicroseconds` (an `int64_t` parameter, so the
`double` argument is truncated toward zero) are modelled with `truncQ`.
On the clamped rate domain `[10, 60]` every delay expression is either
exact in binary floating point or sits at distance ≥ 0.2 from the nearest
integer, so truncation of the `double` result and truncation of the exact
rational value agree there.

The libsvm-style loader and predictor (`svm_load_model`, `svm_predict`
from `ui/events/blink/svm.h`) are not part of the provided tree; they are
modelled from the spec as an abstract record `SvmLib` (a loader that can
fail, and an inference function from a model and the single scalar
feature to a scalar rate).
-/

namespace EBrowser

/-- The four event dispositions returned by `InputHandlerProxy::HandleInputEvent`. -/
inductive EventDisposition where
  | DID_HANDLE
  | DID_NOT_HANDLE
  | DID_HANDLE_NON_BLOCKING
  | DROP_EVENT
  deriving DecidableEq, Repr

/-- Thread affinity returned by the collaborator scroll primitives
(`cc::InputHandler::ScrollStatus::thread`). -/
inductive ScrollThread where
  | SCROLL_ON_IMPL_THREAD
  | SCROLL_ON_MAIN_THREAD
  | SCROLL_UNKNOWN
  | SCROLL_IGNORED
  deriving DecidableEq, Repr

/-- Calls forwarded to the underlying `cc::InputHandler` collaborator. -/
inductive CollabCall where
  | scrollBegin
  | rootScrollBegin
  | scrollAnimatedBegin
  | scrollAnimated
  | scrollBy
  | scrollEnd
  | pinchBegin
  | pinchUpdate
  | pinchEnd
  | flingScrollBegin
  deriving DecidableEq, Repr

/-- C++ `double` → integer conversion: truncation toward zero. -/
def truncQ (q : ℚ) : ℤ :=
  if q < 0 then ⌈q⌉ else ⌊q⌋

/-- The `else if` chain mapping an (already ceiled) rate to a microsecond
delay, shared verbatim by the `GestureScrollUpdate` and
`GesturePinchUpdate` handlers.  In the scroll handler the `fps == 60`
branch only logs (no `Sleep` call at all); in the pinch handler it calls
`Sleep(FromMicroseconds(0))`; both amount to a zero delay.  `0.75`,
`0.6` and `0.5` are written as exact rationals `3/4`, `3/5`, `1/2`. -/
def delayChain (fps : ℤ) : ℤ :=
  if 10 ≤ fps ∧ fps ≤ 15 then truncQ ((1000000 : ℚ) / fps - 16667 + ((fps : ℚ) - 10) * 1667 * (3/4))
  else if 15 < fps ∧ fps < 20 then truncQ ((1000000 : ℚ) / fps - 16667 + ((fps : ℚ) - 10) * 1667 * (3/5))
  else if 20 ≤ fps ∧ fps ≤ 30 then truncQ (24997 + 1667 * ((30 : ℚ) - fps))
  else if 30 < fps ∧ fps ≤ 41 then truncQ (16663 + 1667 * ((41 : ℚ) - fps) * (1/2))
  else if 41 < fps ∧ fps ≤ 44 then truncQ (16246 + 1667 * ((44 : ℚ) - fps) * (1/2))
  else if fps = 45 then 15412
  else if 45 < fps ∧ fps ≤ 52 then truncQ (11245 + 1667 * ((52 : ℚ) - fps) * (1/2))
  else if fps = 55 then 12912
  else if fps = 60 then 0
  else truncQ (12912 + 1667 * ((55 : ℚ) - fps) * (1/2))

/-- Total microseconds slept for a given rate: the handlers contain a
first stand-alone `if (fps >= 1 && fps <= 9)` sleep (never taken after
clamping, and followed by the `else if` chain whose final fallback would
also fire for such rates) followed by `delayChain`. -/
def sleepForRate (fps : ℤ) : ℤ :=
  (if 1 ≤ fps ∧ fps ≤ 9 then truncQ ((1000000 : ℚ) / fps - 16667) else 0) + delayChain fps

/-- `fps = ceil(fps); if (fps < 10) fps = 10; if (fps > 60) fps = 60;`
performed by both update handlers before the delay lookup. -/
def clampFps (fps : ℚ) : ℤ :=
  let f1 : ℤ := ⌈fps⌉
  let f2 : ℤ := if f1 < 10 then 10 else f1
  if f2 > 60 then 60 else f2

/-- Modelled from the spec: the libsvm-style model loader and regression
inference of `ui/events/blink/svm.h` (referenced by the source through
`svm_load_model` / `svm_predict` but not present in the provided tree).
`svm_load_model` parses the serialized model text and returns `none` on
failure (the C++ function returns a null pointer); `svm_predict` runs
regression inference on the single-feature vector
`{index = 1, value = speed}` terminated by `index = -1`, producing the
predicted scalar rate. -/
structure SvmLib (M : Type) where
  svm_load_model : String → Option M
  svm_predict : M → ℚ → ℚ

/-- `predict` from `input_handler_proxy.cc`: returns the ceiling rate 60
when the stored model text is absent/empty or the `"stop"` sentinel;
otherwise loads the model afresh and runs inference.  A failed load hits
`exit(1)` — the process terminates — modelled as `none`.
(`predict_probability` is the constant 0 in the source, so the
probability-support `exit(1)` branch is never taken.) -/
def predict {M : Type} (lib : SvmLib M) (msg_model : String) (speed : ℚ) : Option ℚ :=
  if msg_model = "" ∨ msg_model.length = 0 ∨ msg_model = "stop" then some 60
  else
    match lib.svm_load_model msg_model with
    | none => none
    | some model => some (lib.svm_predict model speed)

/-- The process-wide globals of `input_handler_proxy.cc` together with
the `InputHandlerProxy` members read or written by the gesture handlers.
Trailing-underscore fields mirror the C++ names exactly (the file keeps
two parallel sets of stream accumulators, `accumulated_delta_x` and
`accumulated_delta_x_`, and likewise for `start_point_*`).  The global
`fps` below is the integer frame-rate hint smuggled through
sentinel-coordinate `GestureScrollBegin` events.  `fling_curve_` is the
null-ness of the fling-curve pointer,
and `fling_source_touchscreen` stands for
`fling_parameters_.sourceDevice == WebGestureDeviceTouchscreen`.
Constructor initial values are collected in `initState`. -/
structure ProxyState where
  msg_model : String
  routing_id_ : ℤ
  scrollSpeed : ℤ
  countScrolling : ℤ
  countPinching : ℤ
  start_point_x : ℚ
  start_point_y : ℚ
  start_point_x_ : ℚ
  start_point_y_ : ℚ
  accumulated_delta_x : ℚ
  accumulated_delta_y : ℚ
  accumulated_delta_x_ : ℚ
  accumulated_delta_y_ : ℚ
  pinchCount : ℤ
  scrollCount : ℤ
  fps : ℤ
  isPinch : Bool
  count : ℤ
  last_fps : ℤ
  gesture_scroll_on_impl_thread_ : Bool
  gesture_pinch_on_impl_thread_ : Bool
  fling_may_be_active_on_main_thread_ : Bool
  smooth_scroll_enabled_ : Bool
  fling_curve_ : Bool
  has_fling_animation_started_ : Bool
  deferred_fling_cancel_time_seconds_ : ℚ
  current_fling_velocity_x : ℚ
  current_fling_velocity_y : ℚ
  fling_source_touchscreen : Bool

/-- Initial values: the file-scope globals all start at zero /
empty / false, and the `InputHandlerProxy` constructor initializes
every member used here to false / 0 (`smooth_scroll_enabled_(false)`,
`gesture_scroll_on_impl_thread_(false)`, …, a null fling curve). -/
def initState : ProxyState where
  msg_model := ""
  routing_id_ := 0
  scrollSpeed := 0
  countScrolling := 0
  countPinching := 0
  start_point_x := 0
  start_point_y := 0
  start_point_x_ := 0
  start_point_y_ := 0
  accumulated_delta_x := 0
  accumulated_delta_y := 0
  accumulated_delta_x_ := 0
  accumulated_delta_y_ := 0
  pinchCount := 0
  scrollCount := 0
  fps := 0
  isPinch := false
  count := 0
  last_fps := 0
  gesture_scroll_on_impl_thread_ := false
  gesture_pinch_on_impl_thread_ := false
  fling_may_be_active_on_main_thread_ := false
  smooth_scroll_enabled_ := false
  fling_curve_ := false
  has_fling_animation_started_ := false
  deferred_fling_cancel_time_seconds_ := 0
  current_fling_velocity_x := 0
  current_fling_velocity_y := 0
  fling_source_touchscreen := false

/-- `InputHandlerProxy::HandleInputModelMsg(msg, routing_id, speed)`:
a non-empty message replaces the stored model text; `speed == 0` is
normalized to the default 200, then stored as `scrollSpeed`. -/
def HandleInputModelMsg (s : ProxyState) (msg : String) (routing_id : ℤ) (speed : ℤ) :
    ProxyState :=
  let s1 : ProxyState := { s with routing_id_ := routing_id }
  let s2 : ProxyState :=
    if msg ≠ "" ∧ msg.length ≠ 0 then { s1 with msg_model := msg } else s1
  let speed1 : ℤ := if speed = 0 then 200 else speed
  { s2 with scrollSpeed := speed1 }

/-- The fields of a `blink::WebGestureEvent` that the embedded handlers
read.  `x` and `y` are C++ `int`s; the deltas are `float`s (whose exact
values we track as rationals); the Boolean fields stand for the
enumeration comparisons appearing in the source
(`deltaUnits == ScrollUnits::Pixels`, `deltaHintUnits == Page`,
`deltaHintUnits == Pixels`, `targetViewport`, `pinchUpdate.zoomDisabled`,
`sourceDevice == WebGestureDeviceTouchpad`). -/
structure WebGestureEvent where
  x : ℤ
  y : ℤ
  deltaX : ℚ
  deltaY : ℚ
  timeStampSeconds : ℚ
  deltaUnitsPixels : Bool
  deltaHintUnitsPage : Bool
  deltaHintUnitsPixels : Bool
  targetViewport : Bool
  zoomDisabled : Bool
  sourceDeviceTouchpad : Bool

/-- Responses of the `cc::InputHandler` collaborator for one handled
event: the thread affinity returned by the scroll-begin primitives
(`ScrollBegin` / `RootScrollBegin` / `ScrollAnimatedBegin`), the one
returned by `ScrollAnimated`, the `did_scroll` bit of the
`ScrollBy` result, and whether mouse-wheel event listeners are
registered (`GetEventListenerProperties(kMouseWheel) != kNone`). -/
structure ScrollEnv where
  scroll_begin_thread : ScrollThread
  scroll_animated_thread : ScrollThread
  scroll_by_did_scroll : Bool
  wheel_listeners_present : Bool

/-- `InputHandlerProxy::ShouldAnimate(has_precise_scroll_deltas)` on the
non-Mac path: `smooth_scroll_enabled_ && !has_precise_scroll_deltas`. -/
def ShouldAnimate (s : ProxyState) (has_precise_scroll_deltas : Bool) : Bool :=
  s.smooth_scroll_enabled_ && !has_precise_scroll_deltas

/-- Outcome of one handler call: the disposition returned to the caller,
the total microseconds passed to `base::PlatformThread::Sleep` during
the call, the state after the call, and the calls forwarded to the
`cc::InputHandler` collaborator. -/
structure HandleResult where
  disposition : EventDisposition
  sleep_us : ℤ
  state : ProxyState
  calls : List CollabCall

/-- `InputHandlerProxy::CancelCurrentFlingWithoutNotifyingClient`:
reports whether a fling animation was active, emits `ScrollEnd` for a
touchscreen-sourced fling, and resets the fling state.  The
`deferred_fling_cancel_time_seconds_` branch can further resubmit a
synthetic `GestureScrollBegin` built from `last_fling_boost_event_`,
but both fields are written only in statically dead code (every
assignment sits after the unconditional `return false;` opening
`FilterInputEventForFlingBoosting`, whose callees
`ExtendBoostedFlingTimeout` and the boost cases are unreachable), so
`last_fling_boost_event_` forever remains the default-constructed event whose
type is neither `GestureScrollBegin` nor `GestureScrollUpdate`; the
resubmission therefore never fires and is not modelled. -/
def CancelCurrentFlingWithoutNotifyingClient (s : ProxyState) :
    Bool × ProxyState × List CollabCall :=
  let had_fling_animation : Bool := s.fling_curve_
  let calls : List CollabCall :=
    if had_fling_animation && s.fling_source_touchscreen then [CollabCall.scrollEnd] else []
  let s1 : ProxyState :=
    { s with fling_curve_ := false, has_fling_animation_started_ := false,
             gesture_scroll_on_impl_thread_ := false,
             current_fling_velocity_x := 0, current_fling_velocity_y := 0,
             fling_source_touchscreen := false }
  let s2 : ProxyState :=
    if s1.deferred_fling_cancel_time_seconds_ ≠ 0 then
      { s1 with deferred_fling_cancel_time_seconds_ := 0 }
    else s1
  (had_fling_animation, s2, calls)

/-- `InputHandlerProxy::CancelCurrentFling`: cancel and, when a fling
was active, notify the client (`DidStopFlinging`, not tracked). -/
def CancelCurrentFling (s : ProxyState) : Bool × ProxyState × List CollabCall :=
  CancelCurrentFlingWithoutNotifyingClient s

/-- `InputHandlerProxy::HandleGestureScrollBegin`.  Events carrying the
sentinel coordinates `(-1,-1)` or `(0,0)` are dropped immediately,
storing `timeStampSeconds * 1000` into the global `fps` hint; otherwise
the handler records the start point in the globals
`start_point_x` / `start_point_y`, asks the collaborator to begin the
scroll (page-based hints are forced to the main thread), and maps the
returned thread affinity to a disposition, setting
`gesture_scroll_on_impl_thread_` on `SCROLL_ON_IMPL_THREAD`.
(`scroll_elasticity_controller_` work is fire-and-forget
notification and is not tracked.) -/
def HandleGestureScrollBegin (env : ScrollEnv) (s : ProxyState) (e : WebGestureEvent) :
    HandleResult :=
  if e.x = -1 ∧ e.y = -1 then
    ⟨EventDisposition.DROP_EVENT, 0,
      { s with fps := truncQ (e.timeStampSeconds * 1000) }, []⟩
  else if e.x = 0 ∧ e.y = 0 then
    ⟨EventDisposition.DROP_EVENT, 0,
      { s with fps := truncQ (e.timeStampSeconds * 1000) }, []⟩
  else
    let cancel : ProxyState × List CollabCall :=
      if s.gesture_scroll_on_impl_thread_ then
        let r := CancelCurrentFling s
        (r.2.1, r.2.2)
      else (s, [])
    let s1 : ProxyState :=
      { cancel.1 with start_point_x := (e.x : ℚ), start_point_y := (e.y : ℚ) }
    let beginStep : ScrollThread × List CollabCall :=
      if e.deltaHintUnitsPage then (ScrollThread.SCROLL_ON_MAIN_THREAD, [])
      else if e.targetViewport then (env.scroll_begin_thread, [CollabCall.rootScrollBegin])
      else if ShouldAnimate s1 (!e.deltaHintUnitsPixels) then
        (env.scroll_begin_thread, [CollabCall.scrollAnimatedBegin])
      else (env.scroll_begin_thread, [CollabCall.scrollBegin])
    let calls : List CollabCall := cancel.2 ++ beginStep.2
    match beginStep.1 with
    | ScrollThread.SCROLL_ON_IMPL_THREAD =>
        ⟨EventDisposition.DID_HANDLE, 0,
          { s1 with gesture_scroll_on_impl_thread_ := true }, calls⟩
    | ScrollThread.SCROLL_UNKNOWN => ⟨EventDisposition.DID_NOT_HANDLE, 0, s1, calls⟩
    | ScrollThread.SCROLL_ON_MAIN_THREAD => ⟨EventDisposition.DID_NOT_HANDLE, 0, s1, calls⟩
    | ScrollThread.SCROLL_IGNORED => ⟨EventDisposition.DROP_EVENT, 0, s1, calls⟩

/-- `InputHandlerProxy::HandleGestureScrollUpdate`.  The governor first
divides the stored `scrollSpeed` by 50 (C++ integer division), feeds it
to `predict`, rounds the predicted rate up, clamps it into `[10, 60]`
and sleeps per the delay table; a failed model load exits the process
(`none`).  It then routes: not-on-impl-thread returns
`DID_NOT_HANDLE`; the animated path forwards to `ScrollAnimated`;
the normal path accumulates both delta sets, forwards `ScrollBy`,
resets the underscore-suffixed accumulators and start point, and maps
`did_scroll` to `DID_HANDLE` / `DROP_EVENT`. -/
def HandleGestureScrollUpdate {M : Type} (lib : SvmLib M) (env : ScrollEnv)
    (s : ProxyState) (e : WebGestureEvent) : Option HandleResult :=
  let s0 : ProxyState := { s with scrollSpeed := Int.tdiv s.scrollSpeed 50 }
  match predict lib s0.msg_model (s0.scrollSpeed : ℚ) with
  | none => none
  | some fps0 =>
    let fpsClamped : ℤ := clampFps fps0
    let s1 : ProxyState := { s0 with countScrolling := s0.countScrolling + 1 }
    let sleep : ℤ := sleepForRate fpsClamped
    if !s1.gesture_scroll_on_impl_thread_ && !s1.gesture_pinch_on_impl_thread_ then
      some ⟨EventDisposition.DID_NOT_HANDLE, sleep, s1, []⟩
    else
      let s2 : ProxyState :=
        { s1 with
          start_point_x_ := if s1.start_point_x_ = 0 then (e.x : ℚ) else s1.start_point_x_,
          start_point_y_ := if s1.start_point_y_ = 0 then (e.y : ℚ) else s1.start_point_y_ }
      let s3 : ProxyState :=
        { s2 with
          accumulated_delta_x_ := s2.accumulated_delta_x_ + e.deltaX,
          accumulated_delta_y_ := s2.accumulated_delta_y_ + e.deltaY,
          accumulated_delta_x := s2.accumulated_delta_x + e.deltaX,
          accumulated_delta_y := s2.accumulated_delta_y + e.deltaY }
      if ShouldAnimate s3 (!e.deltaUnitsPixels) then
        match env.scroll_animated_thread with
        | ScrollThread.SCROLL_ON_IMPL_THREAD =>
            some ⟨EventDisposition.DID_HANDLE, sleep, s3, [CollabCall.scrollAnimated]⟩
        | ScrollThread.SCROLL_IGNORED =>
            some ⟨EventDisposition.DROP_EVENT, sleep, s3, [CollabCall.scrollAnimated]⟩
        | _ => some ⟨EventDisposition.DID_NOT_HANDLE, sleep, s3, [CollabCall.scrollAnimated]⟩
      else
        let s4 : ProxyState :=
          { s3 with start_point_x_ := 0, start_point_y_ := 0,
                    accumulated_delta_x_ := 0, accumulated_delta_y_ := 0 }
        some ⟨(if env.scroll_by_did_scroll then EventDisposition.DID_HANDLE
               else EventDisposition.DROP_EVENT), sleep, s4, [CollabCall.scrollBy]⟩

/-- `InputHandlerProxy::HandleGestureScrollEnd` (the live, uncommented
definition): resets the diagnostic `count` / `last_fps`; on the
non-animated path zeroes the underscore-suffixed start point and
accumulators and forwards `ScrollEnd`; returns `DID_NOT_HANDLE` when no
impl-thread scroll is active, else clears the flag and returns
`DID_HANDLE`. -/
def HandleGestureScrollEnd (s : ProxyState) (e : WebGestureEvent) : HandleResult :=
  let s1 : ProxyState := { s with count := 0, last_fps := 0 }
  let endStep : ProxyState × List CollabCall :=
    if ShouldAnimate s1 (!e.deltaUnitsPixels) then (s1, [])
    else
      ({ s1 with start_point_x_ := 0, start_point_y_ := 0,
                 accumulated_delta_x_ := 0, accumulated_delta_y_ := 0 },
       [CollabCall.scrollEnd])
  if !endStep.1.gesture_scroll_on_impl_thread_ then
    ⟨EventDisposition.DID_NOT_HANDLE, 0, endStep.1, endStep.2⟩
  else
    ⟨EventDisposition.DID_HANDLE, 0,
      { endStep.1 with gesture_scroll_on_impl_thread_ := false }, endStep.2⟩

/-- The `GesturePinchUpdate` case of `HandleInputEvent`: on the
impl-thread path the rate comes from the linear fit
`0.0213 * scrollSpeed + 15.6` (not from the SVM model), `scrollSpeed`
is consumed (reset to 0), the rate is ceiled and clamped and the same
delay table is applied, then `zoomDisabled` drops the event, else
`PinchGestureUpdate` is forwarded and the event is handled. -/
def HandleGesturePinchUpdate (s : ProxyState) (e : WebGestureEvent) : HandleResult :=
  if s.gesture_pinch_on_impl_thread_ then
    let fps0 : ℚ := (213 / 10000 : ℚ) * (s.scrollSpeed : ℚ) + 78 / 5
    let s1 : ProxyState := { s with scrollSpeed := 0 }
    let fpsClamped : ℤ := clampFps fps0
    let s2 : ProxyState := { s1 with countPinching := s1.countPinching + 1 }
    let sleep : ℤ := sleepForRate fpsClamped
    let s3 : ProxyState := { s2 with pinchCount := s2.pinchCount + 1 }
    if e.zoomDisabled then ⟨EventDisposition.DROP_EVENT, sleep, s3, []⟩
    else ⟨EventDisposition.DID_HANDLE, sleep, s3, [CollabCall.pinchUpdate]⟩
  else ⟨EventDisposition.DID_NOT_HANDLE, 0, s, []⟩

/-- The input events whose `HandleInputEvent` dispatch rows are
embedded (the gesture scroll / pinch / fling rows; the mouse-wheel /
touch / mouse / keyboard rows do not interact with the governed
streams or the claims). -/
inductive InputEvent where
  | GestureScrollBegin (e : WebGestureEvent)
  | GestureScrollUpdate (e : WebGestureEvent)
  | GestureScrollEnd (e : WebGestureEvent)
  | GesturePinchBegin (e : WebGestureEvent)
  | GesturePinchUpdate (e : WebGestureEvent)
  | GesturePinchEnd
  | GestureFlingStart (e : WebGestureEvent)
  | GestureFlingCancel (e : WebGestureEvent)

/-- `InputHandlerProxy::FilterInputEventForFlingBoosting` opens with an
unconditional `return false;`; all fling-boost merging/suppression
below it (and every write to `deferred_fling_cancel_time_seconds_` and
`last_fling_boost_event_`) is statically dead. -/
def FilterInputEventForFlingBoosting (_ev : InputEvent) : Bool :=
  false

/-- `InputHandlerProxy::HandleInputEvent`: fling-boost filtering (which
never consumes anything, see above) followed by the dispatch switch.
Note the `GestureFlingStart` case: the call to
`HandleGestureFlingStart` is commented out in the source, so the case
falls through into the `GestureFlingCancel` logic — cancel the current
fling, `DID_HANDLE` if one was active, `DROP_EVENT` if no fling may be
active on the main thread, `DID_NOT_HANDLE` otherwise. -/
def HandleInputEvent {M : Type} (lib : SvmLib M) (env : ScrollEnv)
    (s : ProxyState) (ev : InputEvent) : Option HandleResult :=
  if FilterInputEventForFlingBoosting ev then
    some ⟨EventDisposition.DID_HANDLE, 0, s, []⟩
  else
    match ev with
    | InputEvent.GestureScrollBegin e => some (HandleGestureScrollBegin env s e)
    | InputEvent.GestureScrollUpdate e =>
        HandleGestureScrollUpdate lib env { s with scrollCount := s.scrollCount + 1 } e
    | InputEvent.GestureScrollEnd e => some (HandleGestureScrollEnd s e)
    | InputEvent.GesturePinchBegin e =>
        let s1 : ProxyState := { s with isPinch := true }
        if e.sourceDeviceTouchpad && env.wheel_listeners_present then
          some ⟨EventDisposition.DID_NOT_HANDLE, 0, s1, []⟩
        else
          some ⟨EventDisposition.DID_HANDLE, 0,
            { s1 with gesture_pinch_on_impl_thread_ := true }, [CollabCall.pinchBegin]⟩
    | InputEvent.GesturePinchUpdate e => some (HandleGesturePinchUpdate s e)
    | InputEvent.GesturePinchEnd =>
        let s1 : ProxyState := { s with isPinch := false }
        if s1.gesture_pinch_on_impl_thread_ then
          some ⟨EventDisposition.DID_HANDLE, 0,
            { s1 with gesture_pinch_on_impl_thread_ := false, pinchCount := 0 },
            [CollabCall.pinchEnd]⟩
        else some ⟨EventDisposition.DID_NOT_HANDLE, 0, s1, []⟩
    | InputEvent.GestureFlingStart _ =>
        let r := CancelCurrentFling s
        if r.1 then some ⟨EventDisposition.DID_HANDLE, 0, r.2.1, r.2.2⟩
        else if !r.2.1.fling_may_be_active_on_main_thread_ then
          some ⟨EventDisposition.DROP_EVENT, 0, r.2.1, r.2.2⟩
        else some ⟨EventDisposition.DID_NOT_HANDLE, 0, r.2.1, r.2.2⟩
    | InputEvent.GestureFlingCancel _ =>
        let r := CancelCurrentFling s
        if r.1 then some ⟨EventDisposition.DID_HANDLE, 0, r.2.1, r.2.2⟩
        else if !r.2.1.fling_may_be_active_on_main_thread_ then
          some ⟨EventDisposition.DROP_EVENT, 0, r.2.1, r.2.2⟩
        else some ⟨EventDisposition.DID_NOT_HANDLE, 0, r.2.1, r.2.2⟩

/-- One complete gesture stream: `GestureScrollBegin`, then `n`
`GestureScrollUpdate`s, then `GestureScrollEnd`, threaded through the
dispatcher; `none` when a model-load failure terminated the process. -/
def runScrollSequence {M : Type} (lib : SvmLib M) (env : ScrollEnv) (s : ProxyState)
    (eBegin eUpdate eEnd : WebGestureEvent) (n : ℕ) : Option ProxyState :=
  let afterBegin : Option ProxyState :=
    (HandleInputEvent lib env s (InputEvent.GestureScrollBegin eBegin)).map
      (fun r => r.state)
  let step : Option ProxyState → Option ProxyState := fun acc =>
    acc.bind fun st =>
      (HandleInputEvent lib env st (InputEvent.GestureScrollUpdate eUpdate)).map
        (fun r => r.state)
  let afterUpdates : Option ProxyState := step^[n] afterBegin
  afterUpdates.bind fun st =>
    (HandleInputEvent lib env st (InputEvent.GestureScrollEnd eEnd)).map
      (fun r => r.state)

/-- The four underscore-suffixed stream-state cells that the scroll
handlers actively reset (the governor's working accumulators). -/
def streamStateCleared (st : ProxyState) : Prop :=
  st.start_point_x_ = 0 ∧ st.start_point_y_ = 0 ∧
  st.accumulated_delta_x_ = 0 ∧ st.accumulated_delta_y_ = 0

/-- The empty model text. -/
def emptyModelText : String := ""

/-- The disable-sentinel model text. -/
def stopModelText : String := "stop"

/-- A one-character model text accepted by `svmLib30`. -/
def modelTextM : String := "m"

/-- A model text that no loader accepts. -/
def badModelText : String := "x"

/-- A concrete SVM library whose loader always fails. -/
def svmLibNone : SvmLib Unit where
  svm_load_model := fun _ => none
  svm_predict := fun _ _ => 0

/-- A concrete SVM library that loads exactly the text `"m"` and always
predicts rate 30. -/
def svmLib30 : SvmLib Unit where
  svm_load_model := fun t => if t = modelTextM then some () else none
  svm_predict := fun _ _ => 30

/-- A collaborator environment that accepts scrolls on the impl thread
and reports `did_scroll = true`. -/
def env0 : ScrollEnv where
  scroll_begin_thread := ScrollThread.SCROLL_ON_IMPL_THREAD
  scroll_animated_thread := ScrollThread.SCROLL_ON_IMPL_THREAD
  scroll_by_did_scroll := true
  wheel_listeners_present := false

/-- Initial state with an impl-thread gesture scroll active. -/
def stateImplActive : ProxyState :=
  { initState with gesture_scroll_on_impl_thread_ := true }

/-- A scroll-begin event at the sentinel position `(-1, -1)`. -/
def eSentinel : WebGestureEvent where
  x := -1
  y := -1
  deltaX := 0
  deltaY := 0
  timeStampSeconds := 0
  deltaUnitsPixels := false
  deltaHintUnitsPage := false
  deltaHintUnitsPixels := false
  targetViewport := false
  zoomDisabled := false
  sourceDeviceTouchpad := false

/-- A concrete scroll-begin event at position `(5, 7)`. -/
def eBegin0 : WebGestureEvent where
  x := 5
  y := 7
  deltaX := 0
  deltaY := 0
  timeStampSeconds := 0
  deltaUnitsPixels := false
  deltaHintUnitsPage := false
  deltaHintUnitsPixels := false
  targetViewport := false
  zoomDisabled := false
  sourceDeviceTouchpad := false

/-- A concrete scroll-update event with delta `(3, 4)`. -/
def eUpdate0 : WebGestureEvent where
  x := 5
  y := 7
  deltaX := 3
  deltaY := 4
  timeStampSeconds := 0
  deltaUnitsPixels := false
  deltaHintUnitsPage := false
  deltaHintUnitsPixels := false
  targetViewport := false
  zoomDisabled := false
  sourceDeviceTouchpad := false

/-- A concrete scroll-end event. -/
def eEnd0 : WebGestureEvent where
  x := 5
  y := 7
  deltaX := 0
  deltaY := 0
  timeStampSeconds := 0
  deltaUnitsPixels := false
  deltaHintUnitsPage := false
  deltaHintUnitsPixels := false
  targetViewport := false
  zoomDisabled := false
  sourceDeviceTouchpad := false

theorem string_length_ne_zero {s : String} (h : s ≠ "") : s.length ≠ 0 := by
  cases s with
  | mk data =>
    cases data with
    | nil => exact absurd rfl h
    | cons c cs => simp [String.length]

/-- Claim C1: with the stored model text empty or equal to the `"stop"`
sentinel, `predict` returns exactly 60 for every speed input — the
result does not depend on the speed argument. -/
theorem predict_no_model_fallback {M : Type} (lib : SvmLib M) (m : String) (speed : ℚ)
    (h : m = "" ∨ m = "stop") : predict lib m speed = some 60 := by
  rcases h with h | h <;> subst h <;> simp [predict]

/-- Witness for C1: concrete fallbacks at several speeds. -/
theorem predict_no_model_fallback_witness :
    predict svmLibNone emptyModelText 3 = some 60 ∧
    predict svmLibNone stopModelText 7 = some 60 ∧
    predict svmLibNone emptyModelText (-2) = some 60 :=
  ⟨predict_no_model_fallback svmLibNone emptyModelText 3 (Or.inl rfl),
   predict_no_model_fallback svmLibNone stopModelText 7 (Or.inr rfl),
   predict_no_model_fallback svmLibNone emptyModelText (-2) (Or.inl rfl)⟩

/-- Claim C9: if the stored model text is non-empty, not the `"stop"`
sentinel, and the loader returns null, `predict` terminates the process
(`exit(1)`, modelled as `none`) instead of returning a rate. -/
theorem predict_load_failure_fatal {M : Type} (lib : SvmLib M) (m : String) (speed : ℚ)
    (h1 : m ≠ "") (h2 : m ≠ "stop") (h3 : lib.svm_load_model m = none) :
    predict lib m speed = none := by
  simp [predict, h1, h2, string_length_ne_zero h1, h3]

/-- Witness for C9: a concrete failing load. -/
theorem predict_load_failure_fatal_witness : predict svmLibNone badModelText 5 = none :=
  predict_load_failure_fatal svmLibNone badModelText 5 (by decide) (by decide) rfl

/-- Claim C5: the delay table's named band points — clamped rate 45
sleeps exactly 15412 µs, 55 exactly 12912 µs, and 60 exactly 0 µs (the
scroll handler's `fps == 60` branch contains no `Sleep` call at all). -/
theorem delay_band_points :
    sleepForRate 45 = 15412 ∧ sleepForRate 55 = 12912 ∧ sleepForRate 60 = 0 := by
  refine ⟨?_, ?_, ?_⟩ <;> norm_num [sleepForRate, delayChain, truncQ]

/-- Claim C8: a non-empty serialized model replaces the stored model
text and an empty one leaves it unchanged; a baseline speed of 0 is
stored as the default 200 and a non-zero speed is stored as given. -/
theorem model_msg_update (s : ProxyState) (msg : String) (rid speed : ℤ) :
    (msg ≠ "" → (HandleInputModelMsg s msg rid speed).msg_model = msg) ∧
    (msg = "" → (HandleInputModelMsg s msg rid speed).msg_model = s.msg_model) ∧
    (speed = 0 → (HandleInputModelMsg s msg rid speed).scrollSpeed = 200) ∧
    (speed ≠ 0 → (HandleInputModelMsg s msg rid speed).scrollSpeed = speed) := by
  refine ⟨fun h => ?_, fun h => ?_, fun h => ?_, fun h => ?_⟩
  · simp [HandleInputModelMsg, h, string_length_ne_zero h]
  · simp [HandleInputModelMsg, h]
  · simp [HandleInputModelMsg, h]
  · simp [HandleInputModelMsg, h]

/-- Witness for C8: concrete model-message updates. -/
theorem model_msg_update_witness :
    (HandleInputModelMsg initState modelTextM 1 0).msg_model = modelTextM ∧
    (HandleInputModelMsg initState emptyModelText 1 7).msg_model = initState.msg_model ∧
    (HandleInputModelMsg initState modelTextM 1 0).scrollSpeed = 200 ∧
    (HandleInputModelMsg initState modelTextM 1 7).scrollSpeed = 7 :=
  ⟨(model_msg_update initState modelTextM 1 0).1 (by decide),
   (model_msg_update initState emptyModelText 1 7).2.1 rfl,
   (model_msg_update initState modelTextM 1 0).2.2.1 rfl,
   (model_msg_update initState modelTextM 1 7).2.2.2 (by decide)⟩

/-- Claim C4: before any delay lookup on a scroll or pinch update the
predicted rate is ceiled and clamped into `[10, 60]`
(`clampFps q = max 10 (min 60 ⌈q⌉)`, so values below 10 are raised to
10 and values above 60 are lowered to 60), and both update handlers
consult the delay table only at the clamped rate. -/
theorem clamp_before_delay_lookup (q : ℚ) :
    clampFps q = max 10 (min 60 ⌈q⌉) ∧
    10 ≤ clampFps q ∧ clampFps q ≤ 60 ∧
    (∀ (M : Type) (lib : SvmLib M) (env : ScrollEnv) (s : ProxyState) (e : WebGestureEvent),
      (HandleGestureScrollUpdate lib env s e).map (fun r => r.sleep_us) =
        (predict lib s.msg_model ((Int.tdiv s.scrollSpeed 50 : ℤ) : ℚ)).map
          (fun f => sleepForRate (clampFps f))) ∧
    (∀ (s : ProxyState) (e : WebGestureEvent),
      (HandleGesturePinchUpdate s e).sleep_us =
        if s.gesture_pinch_on_impl_thread_ then
          sleepForRate (clampFps ((213 / 10000 : ℚ) * (s.scrollSpeed : ℚ) + 78 / 5))
        else 0) := by
  have hnf : clampFps q = max 10 (min 60 ⌈q⌉) := by
    simp only [clampFps]
    split_ifs <;> omega
  refine ⟨hnf, by rw [hnf]; omega, by rw [hnf]; omega, ?_, ?_⟩
  · intro M lib env s e
    cases hp : predict lib s.msg_model ((Int.tdiv s.scrollSpeed 50 : ℤ) : ℚ) with
    | none => simp [HandleGestureScrollUpdate, hp]
    | some f =>
      simp only [HandleGestureScrollUpdate, hp, Option.map_some]
      split_ifs <;> first
        | rfl
        | (cases env.scroll_animated_thread <;> rfl)
  · intro s e
    by_cases hp : s.gesture_pinch_on_impl_thread_ = true
    · simp only [HandleGesturePinchUpdate, hp, if_true]
      split_ifs <;> rfl
    · simp only [Bool.not_eq_true] at hp
      simp [HandleGesturePinchUpdate, hp]

/-- Claim C3 is false as stated: the mapping is not monotonically
non-increasing over the whole clamped domain `[10, 60]` — at the band
boundary `30 → 31` the delay rises from 24997 µs to 24998 µs. -/
theorem delay_not_monotone_counterexample :
    ¬ (∀ r1 r2 : ℤ, 10 ≤ r1 → r1 < r2 → r2 ≤ 60 → sleepForRate r2 ≤ sleepForRate r1) := by
  intro h
  have h30 := h 30 31 (by decide) (by decide) (by decide)
  have e30 : sleepForRate 30 = 24997 := by norm_num [sleepForRate, delayChain, truncQ]
  have e31 : sleepForRate 31 = 24998 := by norm_num [sleepForRate, delayChain, truncQ]
  omega

set_option maxHeartbeats 3200000 in
/-- Claim C3, amended: the rate-to-delay mapping is monotonically
non-increasing within each band of the piecewise definition
(`[10,15]`, `(15,20)`, `[20,30]`, `(30,41]`, `(41,44]`, `(45,52]`, and
the fallback band `{53,54,56,57,58,59}`), but not across band
boundaries (it rises at 30→31, 41→42, 45→46 and 52→53). -/
theorem delay_monotone_within_bands :
    (∀ r1 r2 : ℤ, 10 ≤ r1 → r1 < r2 → r2 ≤ 15 → sleepForRate r2 ≤ sleepForRate r1) ∧
    (∀ r1 r2 : ℤ, 15 < r1 → r1 < r2 → r2 < 20 → sleepForRate r2 ≤ sleepForRate r1) ∧
    (∀ r1 r2 : ℤ, 20 ≤ r1 → r1 < r2 → r2 ≤ 30 → sleepForRate r2 ≤ sleepForRate r1) ∧
    (∀ r1 r2 : ℤ, 30 < r1 → r1 < r2 → r2 ≤ 41 → sleepForRate r2 ≤ sleepForRate r1) ∧
    (∀ r1 r2 : ℤ, 41 < r1 → r1 < r2 → r2 ≤ 44 → sleepForRate r2 ≤ sleepForRate r1) ∧
    (∀ r1 r2 : ℤ, 45 < r1 → r1 < r2 → r2 ≤ 52 → sleepForRate r2 ≤ sleepForRate r1) ∧
    (∀ r1 r2 : ℤ, r1 ∈ ([53, 54, 56, 57, 58, 59] : List ℤ) →
      r2 ∈ ([53, 54, 56, 57, 58, 59] : List ℤ) → r1 < r2 →
      sleepForRate r2 ≤ sleepForRate r1) := by
  refine ⟨?_, ?_, ?_, ?_, ?_, ?_, ?_⟩
  · intro r1 r2 h1 h2 h3
    have h4 : r1 ≤ 15 := by omega
    interval_cases r1 <;> interval_cases r2 <;>
      norm_num [sleepForRate, delayChain, truncQ]
  · intro r1 r2 h1 h2 h3
    have h4 : r1 < 20 := by omega
    interval_cases r1 <;> interval_cases r2 <;>
      norm_num [sleepForRate, delayChain, truncQ]
  · intro r1 r2 h1 h2 h3
    have h4 : r1 ≤ 30 := by omega
    interval_cases r1 <;> interval_cases r2 <;>
      norm_num [sleepForRate, delayChain, truncQ]
  · intro r1 r2 h1 h2 h3
    have h4 : r1 ≤ 41 := by omega
    interval_cases r1 <;> interval_cases r2 <;>
      norm_num [sleepForRate, delayChain, truncQ]
  · intro r1 r2 h1 h2 h3
    have h4 : r1 ≤ 44 := by omega
    interval_cases r1 <;> interval_cases r2 <;>
      norm_num [sleepForRate, delayChain, truncQ]
  · intro r1 r2 h1 h2 h3
    have h4 : r1 ≤ 52 := by omega
    interval_cases r1 <;> interval_cases r2 <;>
      norm_num [sleepForRate, delayChain, truncQ]
  · intro r1 r2 h1 h2 h3
    fin_cases h1 <;> fin_cases h2 <;>
      first
        | (exfalso; omega)
        | norm_num [sleepForRate, delayChain, truncQ]

/-- Witness for the amended C3 at concrete in-band rates. -/
theorem delay_monotone_within_bands_witness :
    sleepForRate 11 ≤ sleepForRate 10 :=
  delay_monotone_within_bands.1 10 11 (by decide) (by decide) (by decide)

/-- Claim C6: a `GestureScrollBegin` at exactly `(-1,-1)` or `(0,0)`
returns `DROP_EVENT`, forwards nothing to the underlying input handler,
and leaves the stream-state start positions, accumulated deltas and
counters unchanged.  (The sentinel branch does store the smuggled
frame-rate hint `timeStampSeconds * 1000` into the global `fps`, which
is not among those fields.) -/
theorem sentinel_scroll_begin_drop (env : ScrollEnv) (s : ProxyState) (e : WebGestureEvent)
    (h : (e.x = -1 ∧ e.y = -1) ∨ (e.x = 0 ∧ e.y = 0)) :
    (HandleGestureScrollBegin env s e).disposition = EventDisposition.DROP_EVENT ∧
    (HandleGestureScrollBegin env s e).calls = [] ∧
    (HandleGestureScrollBegin env s e).state.start_point_x = s.start_point_x ∧
    (HandleGestureScrollBegin env s e).state.start_point_y = s.start_point_y ∧
    (HandleGestureScrollBegin env s e).state.start_point_x_ = s.start_point_x_ ∧
    (HandleGestureScrollBegin env s e).state.start_point_y_ = s.start_point_y_ ∧
    (HandleGestureScrollBegin env s e).state.accumulated_delta_x = s.accumulated_delta_x ∧
    (HandleGestureScrollBegin env s e).state.accumulated_delta_y = s.accumulated_delta_y ∧
    (HandleGestureScrollBegin env s e).state.accumulated_delta_x_ = s.accumulated_delta_x_ ∧
    (HandleGestureScrollBegin env s e).state.accumulated_delta_y_ = s.accumulated_delta_y_ ∧
    (HandleGestureScrollBegin env s e).state.scrollCount = s.scrollCount ∧
    (HandleGestureScrollBegin env s e).state.pinchCount = s.pinchCount ∧
    (HandleGestureScrollBegin env s e).state.countScrolling = s.countScrolling ∧
    (HandleGestureScrollBegin env s e).state.countPinching = s.countPinching := by
  rcases h with ⟨hx, hy⟩ | ⟨hx, hy⟩ <;> simp [HandleGestureScrollBegin, hx, hy]

/-- Witness for C6: concrete sentinel event at `(-1,-1)`. -/
theorem sentinel_scroll_begin_drop_witness :
    (HandleGestureScrollBegin env0 initState eSentinel).disposition =
      EventDisposition.DROP_EVENT ∧
    (HandleGestureScrollBegin env0 initState eSentinel).calls = [] ∧
    (HandleGestureScrollBegin env0 initState eSentinel).state.start_point_x =
      initState.start_point_x ∧
    (HandleGestureScrollBegin env0 initState eSentinel).state.start_point_y =
      initState.start_point_y ∧
    (HandleGestureScrollBegin env0 initState eSentinel).state.start_point_x_ =
      initState.start_point_x_ ∧
    (HandleGestureScrollBegin env0 initState eSentinel).state.start_point_y_ =
      initState.start_point_y_ ∧
    (HandleGestureScrollBegin env0 initState eSentinel).state.accumulated_delta_x =
      initState.accumulated_delta_x ∧
    (HandleGestureScrollBegin env0 initState eSentinel).state.accumulated_delta_y =
      initState.accumulated_delta_y ∧
    (HandleGestureScrollBegin env0 initState eSentinel).state.accumulated_delta_x_ =
      initState.accumulated_delta_x_ ∧
    (HandleGestureScrollBegin env0 initState eSentinel).state.accumulated_delta_y_ =
      initState.accumulated_delta_y_ ∧
    (HandleGestureScrollBegin env0 initState eSentinel).state.scrollCount =
      initState.scrollCount ∧
    (HandleGestureScrollBegin env0 initState eSentinel).state.pinchCount =
      initState.pinchCount ∧
    (HandleGestureScrollBegin env0 initState eSentinel).state.countScrolling =
      initState.countScrolling ∧
    (HandleGestureScrollBegin env0 initState eSentinel).state.countPinching =
      initState.countPinching :=
  sentinel_scroll_begin_drop env0 initState eSentinel (Or.inl ⟨rfl, rfl⟩)

/-- Claim C10: the fling-boost filter consumes nothing (it returns
`false` for every event before any boosting logic), and a
`GestureFlingStart` never starts a fling from the dispatch table: it
falls through to the fling-cancel case, yielding `DID_HANDLE` when an
active fling was cancelled, `DROP_EVENT` when no fling may be active on
the main thread, and `DID_NOT_HANDLE` otherwise — and never forwards a
`FlingScrollBegin` (the only collaborator call is the `ScrollEnd` that
cancelling a touchscreen fling emits). -/
theorem fling_filter_and_fling_start_fallthrough :
    (∀ ev : InputEvent, FilterInputEventForFlingBoosting ev = false) ∧
    (∀ (M : Type) (lib : SvmLib M) (env : ScrollEnv) (s : ProxyState) (e : WebGestureEvent),
      (HandleInputEvent lib env s (InputEvent.GestureFlingStart e)).map
          (fun r => (r.disposition, r.calls)) =
        some ((if s.fling_curve_ then EventDisposition.DID_HANDLE
               else if !s.fling_may_be_active_on_main_thread_ then EventDisposition.DROP_EVENT
               else EventDisposition.DID_NOT_HANDLE),
              (if s.fling_curve_ && s.fling_source_touchscreen then
                 [CollabCall.scrollEnd]
               else []))) := by
  refine ⟨fun _ => rfl, ?_⟩
  intro M lib env s e
  simp only [HandleInputEvent, FilterInputEventForFlingBoosting, CancelCurrentFling,
    CancelCurrentFlingWithoutNotifyingClient, Bool.false_eq_true, if_false]
  cases hc : s.fling_curve_ <;>
    cases hm : s.fling_may_be_active_on_main_thread_ <;>
      split_ifs <;> simp_all

/-- Claim C2: with baseline speed 200 set through the model message and
a valid model whose prediction at input `200 / 50 = 4` is rate 30,
handling one `GestureScrollUpdate` sleeps the calling thread for
exactly `24997 + 1667 * (30 - 30) = 24997` microseconds and returns
`DID_HANDLE`, given that `ScrollBy` reports `did_scroll = true`, an
impl-thread gesture scroll is active, and the non-animated path is
taken (`smooth_scroll_enabled_` off). -/
theorem scroll_update_end_to_end {M : Type} (lib : SvmLib M) (mdl : M)
    (modelText : String) (env : ScrollEnv) (s0 : ProxyState) (e : WebGestureEvent)
    (rid : ℤ)
    (hne : modelText ≠ "") (hstop : modelText ≠ "stop")
    (hload : lib.svm_load_model modelText = some mdl)
    (hpred : lib.svm_predict mdl 4 = 30)
    (himpl : s0.gesture_scroll_on_impl_thread_ = true)
    (hsm : s0.smooth_scroll_enabled_ = false)
    (hscroll : env.scroll_by_did_scroll = true) :
    (HandleInputEvent lib env (HandleInputModelMsg s0 modelText rid 200)
        (InputEvent.GestureScrollUpdate e)).map (fun r => (r.disposition, r.sleep_us)) =
      some (EventDisposition.DID_HANDLE, 24997) := by
  have hdiv : Int.tdiv 200 50 = 4 := by decide
  have hclamp : clampFps 30 = 30 := by norm_num [clampFps]
  have hsleep : sleepForRate 30 = 24997 := by
    norm_num [sleepForRate, delayChain, truncQ]
  simp [HandleInputEvent, FilterInputEventForFlingBoosting, HandleInputModelMsg,
    HandleGestureScrollUpdate, predict, ShouldAnimate, hne, hstop,
    string_length_ne_zero hne, hload, hpred, himpl, hsm, hscroll, hdiv, hclamp, hsleep]

/-- Witness for C2: a concrete model text, SVM library predicting 30,
impl-thread-active state and `did_scroll = true` environment. -/
theorem scroll_update_end_to_end_witness :
    (HandleInputEvent svmLib30 env0 (HandleInputModelMsg stateImplActive modelTextM 1 200)
        (InputEvent.GestureScrollUpdate eUpdate0)).map (fun r => (r.disposition, r.sleep_us)) =
      some (EventDisposition.DID_HANDLE, 24997) :=
  scroll_update_end_to_end svmLib30 () modelTextM env0 stateImplActive eUpdate0 1
    (by decide) (by decide) rfl rfl rfl rfl rfl

theorem cancel_preserves_smooth (s : ProxyState) :
    (CancelCurrentFling s).2.1.smooth_scroll_enabled_ = s.smooth_scroll_enabled_ := by
  simp only [CancelCurrentFling, CancelCurrentFlingWithoutNotifyingClient]
  split_ifs <;> rfl

theorem scroll_begin_preserves_smooth (env : ScrollEnv) (s : ProxyState)
    (e : WebGestureEvent) :
    (HandleGestureScrollBegin env s e).state.smooth_scroll_enabled_ =
      s.smooth_scroll_enabled_ := by
  simp only [HandleGestureScrollBegin]
  split_ifs <;> try rfl
  all_goals
    split <;>
      first
        | rfl
        | (rw [cancel_preserves_smooth])

theorem scroll_update_preserves_smooth {M : Type} (lib : SvmLib M) (env : ScrollEnv)
    (s : ProxyState) (e : WebGestureEvent) :
    ∀ r ∈ HandleGestureScrollUpdate lib env s e,
      r.state.smooth_scroll_enabled_ = s.smooth_scroll_enabled_ := by
  intro r hr
  simp only [Option.mem_def] at hr
  simp only [HandleGestureScrollUpdate] at hr
  split at hr
  · exact absurd hr (by simp)
  · split_ifs at hr <;>
      first
        | (cases hr; rfl)
        | (split at hr <;> cases hr <;> rfl)

theorem scroll_end_clears_stream (s : ProxyState) (e : WebGestureEvent)
    (hsm : s.smooth_scroll_enabled_ = false) :
    streamStateCleared (HandleGestureScrollEnd s e).state := by
  simp only [HandleGestureScrollEnd, ShouldAnimate, streamStateCleared, hsm,
    Bool.false_and, Bool.false_eq_true, if_false]
  split_ifs <;> exact ⟨rfl, rfl, rfl, rfl⟩

/-- Claim C7 is false as stated: after the concrete stream
`Begin (5,7) → Update (delta (3,4)) → End` on the non-animated path,
the run completes but the non-underscore stream-state cells
`accumulated_delta_x` and `start_point_x` hold 3 and 5, not zero —
those two globals are never reset anywhere in the source. -/
theorem stream_reset_counterexample :
    (runScrollSequence svmLibNone env0 initState eBegin0 eUpdate0 eEnd0 1).map
        (fun st => (st.accumulated_delta_x, st.start_point_x)) = some (3, 5) ∧
    (3 : ℚ) ≠ 0 ∧ (5 : ℚ) ≠ 0 := by
  refine ⟨?_, by norm_num, by norm_num⟩
  norm_num [runScrollSequence, HandleInputEvent, FilterInputEventForFlingBoosting,
    HandleGestureScrollBegin, HandleGestureScrollUpdate, HandleGestureScrollEnd,
    CancelCurrentFling, CancelCurrentFlingWithoutNotifyingClient,
    predict, ShouldAnimate, clampFps, sleepForRate, delayChain, truncQ,
    initState, env0, eBegin0, eUpdate0, eEnd0, svmLibNone, Function.iterate_one]

theorem end_stage_clears {M : Type} (lib : SvmLib M) (env : ScrollEnv)
    (eE : WebGestureEvent) (o : Option ProxyState)
    (h : ∀ st ∈ o, st.smooth_scroll_enabled_ = false) :
    (o.bind fun st =>
      (HandleInputEvent lib env st (InputEvent.GestureScrollEnd eE)).map
        (fun r => r.state)).elim True streamStateCleared := by
  cases o with
  | none => simp
  | some st2 =>
    have h2 : st2.smooth_scroll_enabled_ = false := h st2 rfl
    simp only [Option.some_bind, HandleInputEvent, FilterInputEventForFlingBoosting,
      Bool.false_eq_true, if_false, Option.map_some', Option.elim_some]
    exact scroll_end_clears_stream st2 eE h2

/-- Claim C7, amended: a complete `Begin → Update×N → End` stream on
the non-animated path leaves the underscore-suffixed stream state
(`start_point_x_`, `start_point_y_`, `accumulated_delta_x_`,
`accumulated_delta_y_`) at zero, for every N; the non-suffixed
`start_point_x/y` and `accumulated_delta_x/y` globals are never reset
and retain the begin position and the running delta totals. -/
theorem stream_reset_underscore {M : Type} (lib : SvmLib M) (env : ScrollEnv)
    (s : ProxyState) (eB eU eE : WebGestureEvent) (n : ℕ)
    (hsm : s.smooth_scroll_enabled_ = false) :
    (runScrollSequence lib env s eB eU eE n).elim True streamStateCleared := by
  have hB : ∀ st ∈ (HandleInputEvent lib env s (InputEvent.GestureScrollBegin eB)).map
      (fun r => r.state), st.smooth_scroll_enabled_ = false := by
    intro st hst
    simp only [HandleInputEvent, FilterInputEventForFlingBoosting, Bool.false_eq_true,
      if_false, Option.map_some', Option.mem_def, Option.some_inj] at hst
    rw [← hst, scroll_begin_preserves_smooth, hsm]
  have hIter : ∀ st ∈ (fun acc : Option ProxyState =>
      acc.bind fun st =>
        (HandleInputEvent lib env st (InputEvent.GestureScrollUpdate eU)).map
          (fun r => r.state))^[n]
      ((HandleInputEvent lib env s (InputEvent.GestureScrollBegin eB)).map
        (fun r => r.state)), st.smooth_scroll_enabled_ = false := by
    induction n with
    | zero => exact hB
    | succ k ih =>
      rw [Function.iterate_succ_apply']
      intro st hst
      simp only [Option.mem_def, Option.bind_eq_some, Option.map_eq_some'] at hst
      obtain ⟨st1, hst1, r, hr, hrs⟩ := hst
      have h1 : st1.smooth_scroll_enabled_ = false := ih st1 hst1
      have h2 := scroll_update_preserves_smooth lib env
        { st1 with scrollCount := st1.scrollCount + 1 } eU r
      simp only [HandleInputEvent, FilterInputEventForFlingBoosting, Bool.false_eq_true,
        if_false] at hr
      rw [← hrs, h2 hr, h1]
  exact end_stage_clears lib env eE _ hIter

/-- Witness for the amended C7: the concrete N = 5 stream. -/
theorem stream_reset_underscore_witness :
    (runScrollSequence svmLibNone env0 initState eBegin0 eUpdate0 eEnd0 5).elim
      True streamStateCleared :=
  stream_reset_underscore svmLibNone env0 initState eBegin0 eUpdate0 eEnd0 5 rfl

end EBrowser
